import Mathlib

/-!
Verification of the DentalAssessment backend core: a shallow embedding of the
model orchestrator, the batch scheduler, the two-tier image store, the Redis
cache wrapper and the logging service, together with theorems about the
claimed behaviour of each component.
-/

namespace DentalAssessment

/-- api/schemas/schemas.py: the ModelType enum with values cnn, svm, quantum. -/
inductive ModelType
  | cnn
  | svm
  | quantum
deriving DecidableEq

/-- api/schemas/schemas.py: the PredictionType enum with values lesion, normal. -/
inductive PredictionType
  | lesion
  | normal
deriving DecidableEq

/-- services/model_orchestrator.py: the ModelResult object returned by every
backend predict call.  Confidence and processing time are modelled as
rationals; the feature dict as an association list. -/
structure ModelResult where
  prediction : PredictionType
  confidence : Rat
  featuresDict : List (String × Rat)
  roiBase64 : Option String := none
  roiCoordinates : Option (List (String × Nat)) := none
  processingTimeMs : Rat := 0
deriving DecidableEq

/-- A backend instance held in ModelOrchestrator.models: one of the real models
(CNNModel, SVMModel, QuantumSVMModel, keyed by the ModelType they were
registered under) or the DummyModel fallback built by _create_dummy_models. -/
inductive Backend
  | real (kind : ModelType)
  | dummy (kind : ModelType)
deriving DecidableEq

/-- The Python class name of a backend instance, as reported by
get_available_models via model.__class__.__name__. -/
def Backend.className : Backend → String
  | .real .cnn => "CNNModel"
  | .real .svm => "SVMModel"
  | .real .quantum => "QuantumSVMModel"
  | .dummy _ => "DummyModel"

/-- The self.models dict of ModelOrchestrator, keyed by ModelType. -/
abbrev Models := ModelType → Option Backend

/-- Bind one key of the models dict. -/
def setModel (m : Models) (k : ModelType) (b : Backend) : Models :=
  fun k' => if k' = k then some b else m k'

/-- The point at which the body of _load_models raises, if any: the imports or
one of the three constructor calls, executed in this order.  none models the
fully successful load. -/
inductive LoadStep
  | imports
  | cnnCtor
  | svmCtor
  | quantumCtor
deriving DecidableEq

/-- services/model_orchestrator.py _create_dummy_models: rebinds all three
model ids to DummyModel instances, overwriting whatever was there. -/
def createDummyModels (m : Models) : Models :=
  setModel (setModel (setModel m .cnn (.dummy .cnn)) .svm (.dummy .svm))
    .quantum (.dummy .quantum)

/-- services/model_orchestrator.py _load_models: performs the imports, then
constructs and registers CNN, SVM and Quantum in order inside a single try;
any exception anywhere in that block jumps to the handler, which calls
_create_dummy_models.  Registrations made before the failing step are visible
to the handler (and are then overwritten by it). -/
def loadModels (failAt : Option LoadStep) : Models :=
  match failAt with
  | none =>
      setModel (setModel (setModel (fun _ => none) .cnn (.real .cnn))
        .svm (.real .svm)) .quantum (.real .quantum)
  | some .imports => createDummyModels (fun _ => none)
  | some .cnnCtor => createDummyModels (fun _ => none)
  | some .svmCtor => createDummyModels (setModel (fun _ => none) .cnn (.real .cnn))
  | some .quantumCtor =>
      createDummyModels (setModel (setModel (fun _ => none) .cnn (.real .cnn))
        .svm (.real .svm))

/-- The fixed enumeration of ModelType values. -/
def allModelTypes : List ModelType := [.cnn, .svm, .quantum]

/-- services/model_orchestrator.py get_available_models: one entry per key of
self.models, reporting the model type and the backend class name. -/
def getAvailableModels (m : Models) : List (ModelType × String) :=
  allModelTypes.filterMap (fun mt => (m mt).map (fun b => (mt, b.className)))

/-- services/logging_service.py: the five console log levels _write_log
dispatches on. -/
inductive LogLevel
  | debug
  | info
  | warning
  | error
  | critical
deriving DecidableEq

/-- _write_log writes to the database only for levels in the list
ERROR, WARNING, CRITICAL. -/
def levelGate : LogLevel → Bool
  | .warning => true
  | .error => true
  | .critical => true
  | _ => false

/-- Observable side effects of the services: a console (structlog) emission, a
durable database log row, or a cache write keyed by a string. -/
inductive Effect
  | emitLive (lvl : LogLevel) (msg : String)
  | persistDb (lvl : LogLevel) (msg : String)
  | cacheWrite (key : String)
deriving DecidableEq

/-- services/logging_service.py LoggingService._write_log: always logs to the
console sink at the given level; additionally writes a row to the database
only when the level is in ERROR/WARNING/CRITICAL and self.initialized is
true; a database failure is swallowed and reported as a console error. -/
def writeLog (inited dbOk : Bool) (lvl : LogLevel) (msg : String) : List Effect :=
  Effect.emitLive lvl msg ::
    (if levelGate lvl && inited then
      (if dbOk then [Effect.persistDb lvl msg]
       else [Effect.emitLive .error "Failed to write log to database"])
     else [])

/-- Whether an effect trace contains a durable database log row. -/
def hasPersist (effs : List Effect) : Bool :=
  effs.any (fun e => match e with | .persistDb _ _ => true | _ => false)

/-- Whether an effect trace contains a cache write. -/
def hasCacheWrite (effs : List Effect) : Bool :=
  effs.any (fun e => match e with | .cacheWrite _ => true | _ => false)

/-- Exceptions raised on the assessment path: the ValueError raised by
assess_image for an unregistered model type, or an exception escaping the
backend predict call. -/
inductive Err
  | modelNotAvailable (mt : ModelType)
  | backendFailure (msg : String)
deriving DecidableEq

/-- What a call to assess_image does for its caller: return a ModelResult, or
let an exception propagate. -/
inductive AssessOutcome
  | ok (r : ModelResult)
  | raised (e : Err)
deriving DecidableEq

/-- The body of assess_image after the model lookup succeeded: logs the start,
runs predict, and on success logs completion plus the model-performance entry
(written through _write_log at INFO); on a predict exception it logs an error
and re-raises that same exception. -/
def assessRegistered (b : Backend) (predictOut : Backend → Except Err ModelResult)
    (logInited logDbOk : Bool) : AssessOutcome × List Effect :=
  match predictOut b with
  | .ok r =>
      (.ok r,
        Effect.emitLive .info "Starting assessment" ::
        Effect.emitLive .info "Assessment completed" ::
        writeLog logInited logDbOk .info "Model performance")
  | .error e =>
      (.raised e,
        [Effect.emitLive .info "Starting assessment",
         Effect.emitLive .error "Assessment failed"])

/-- services/model_orchestrator.py ModelOrchestrator.assess_image: raises
ValueError immediately when the model type is not a key of self.models;
otherwise proceeds with the registered backend.  The predict behaviour is a
parameter; requestId is the correlation id passed by the caller.  The List
Effect component is the trace of cache and log side effects the call emits. -/
def assessImage (models : Models) (mt : ModelType) (requestId : String)
    (predictOut : Backend → Except Err ModelResult)
    (logInited logDbOk : Bool) : AssessOutcome × List Effect :=
  match models mt with
  | none => (.raised (.modelNotAvailable mt), [])
  | some b => assessRegistered b predictOut logInited logDbOk

/-- Outcome of one call into an external client (redis, the filesystem, the
MinIO SDK): the call returns a value, or it raises. -/
inductive CallOutcome (α : Type)
  | ok (a : α)
  | raise
deriving DecidableEq

/-- Cached values as stored by the service (pickled payloads, kept opaque). -/
abbrev CVal := String

/-- pickle.dumps, kept opaque: the wire form of a cached value. -/
def pickleDumps (v : CVal) : String := v

/-- pickle.loads, kept opaque: inverse of pickleDumps. -/
def pickleLoads (s : String) : CVal := s

/-- services/cache_service.py CacheService.get: a miss (None) when
self.redis_client is not initialized; otherwise calls redis get under a
try/except, where a raised exception yields a miss, an absent or empty value
yields a miss, and a present value is unpickled.  The Except layer records
whether the call raises to its own caller; the body catches everything, so it
never does. -/
def cacheGet (clientInit : Bool) (key : String)
    (redisGet : String → CallOutcome (Option String)) :
    Except Unit (Option CVal) :=
  if clientInit = false then .ok none
  else
    match redisGet key with
    | .raise => .ok none
    | .ok none => .ok none
    | .ok (some s) => .ok (if s = "" then none else some (pickleLoads s))

/-- services/cache_service.py CacheService.set: returns False without touching
redis when the client is not initialized; otherwise pickles the value and
calls setex under a try/except, returning True on success and False when the
call raises.  It never raises to its own caller. -/
def cacheSet (clientInit : Bool) (key : String) (v : CVal) (ttl : Nat)
    (redisSetex : String → Nat → String → CallOutcome Unit) :
    Except Unit Bool :=
  if clientInit = false then .ok false
  else
    match redisSetex key ttl (pickleDumps v) with
    | .raise => .ok false
    | .ok _ => .ok true

/-- The record dict returned by save_uploaded_image: filename, path, size,
format.  It carries no field recording which tiers hold the bytes. -/
structure SavedRecord where
  filename : String
  path : String
  size : Nat
  format : String
deriving DecidableEq

/-- A completed tier write during save_uploaded_image, in execution order. -/
inductive SaveStep
  | localWrite
  | remotePut
deriving DecidableEq

/-- services/image_service.py ImageService.save_uploaded_image: builds the
unique name, then, inside a single try/except that logs and re-raises any
exception, reads the upload, writes the bytes to the local uploads directory,
and, only when self.minio_client is initialized, mirrors them to MinIO with
put_object; finally returns the record dict.  The List SaveStep component
records the tier writes that completed, in order. -/
def saveUploadedImage (minioInit : Bool)
    (fileRead : CallOutcome (List Nat)) (localWriteOk remotePutOk : Bool)
    (origName contentType requestId : String) :
    Except Unit SavedRecord × List SaveStep :=
  let uniqueFilename := requestId ++ "_" ++ origName
  match fileRead with
  | .raise => (.error (), [])
  | .ok content =>
    if localWriteOk = false then (.error (), [])
    else if minioInit then
      if remotePutOk then
        (.ok { filename := uniqueFilename, path := "uploads/" ++ uniqueFilename,
               size := content.length, format := contentType },
         [SaveStep.localWrite, SaveStep.remotePut])
      else (.error (), [SaveStep.localWrite])
    else
      (.ok { filename := uniqueFilename, path := "uploads/" ++ uniqueFilename,
             size := content.length, format := contentType },
       [SaveStep.localWrite])

/-- What the MinIO read in get_image can observe: the object bytes, or an
S3Error (raised both for a missing object and for an S3-level failure; this is
the only exception class the code catches there). -/
inductive RemoteGet
  | found (d : List Nat)
  | s3err
deriving DecidableEq

/-- services/image_service.py ImageService.get_image: when self.minio_client is
initialized it tries MinIO first and returns those bytes on success, while an
S3Error falls through; then the local tier returns the file bytes when the
file exists and the read succeeds, a read failure being logged and ignored;
None is returned when no tier yielded bytes. -/
def getImage (minioInit : Bool) (remote : RemoteGet)
    (localFile : Option (List Nat)) (localReadOk : Bool) : Option (List Nat) :=
  match minioInit, remote with
  | true, .found d => some d
  | _, _ =>
    match localFile with
    | some d => if localReadOk then some d else none
    | none => none

/-- The outcome batch_assess records for one image path: what assess_image,
called by assess_with_semaphore with that path, returns or raises (gather runs
with return_exceptions true, so a raised exception becomes the list entry). -/
def unitResult (models : Models) (mt : ModelType)
    (predictOutFor : String → Backend → Except Err ModelResult)
    (logInited logDbOk : Bool) (path : String) : AssessOutcome :=
  (assessImage models mt "" (predictOutFor path) logInited logDbOk).fst

/-- Per-task state in a batch_assess execution: not yet admitted by the
semaphore, admitted and inside its assess_image call, or completed with the
entry gather records for it. -/
inductive TaskSt
  | waiting
  | running
  | done (res : AssessOutcome)

/-- Whether a task currently holds a semaphore permit and is inside its
assess_image call. -/
def isRunning : TaskSt → Bool
  | .running => true
  | _ => false

/-- A snapshot of a batch_assess execution: free semaphore permits and the
per-task states, listed in submission order. -/
structure BatchState where
  sem : Nat
  tasks : List TaskSt

/-- The state at the moment asyncio.gather starts the tasks: all permits free,
every task waiting. -/
def initState (m k : Nat) : BatchState := ⟨m, List.replicate k .waiting⟩

/-- How many tasks are inside their assess_image call in a snapshot. -/
def runningCount (s : BatchState) : Nat := s.tasks.countP isRunning

/-- One scheduler step of batch_assess with per-task outcomes drawn from the
list outcomes: a waiting task acquires the semaphore (async with semaphore)
and enters assess_image, or a running task finishes, records its outcome and
releases its permit.  The interleaving is unconstrained. -/
inductive BStep (outcomes : List AssessOutcome) : BatchState → BatchState → Prop
  | start (s : BatchState) (i : Nat)
      (hw : s.tasks.get? i = some .waiting) (hsem : 0 < s.sem) :
      BStep outcomes s ⟨s.sem - 1, s.tasks.set i .running⟩
  | finish (s : BatchState) (i : Nat) (o : AssessOutcome)
      (hr : s.tasks.get? i = some .running) (ho : outcomes.get? i = some o) :
      BStep outcomes s ⟨s.sem + 1, s.tasks.set i (.done o)⟩

/-- The snapshots reachable in some execution of batch_assess over
outcomes.length tasks with admission bound m. -/
inductive Reach (outcomes : List AssessOutcome) (m : Nat) : BatchState → Prop
  | init : Reach outcomes m (initState m outcomes.length)
  | step {s t : BatchState} : Reach outcomes m s → BStep outcomes s t →
      Reach outcomes m t

section ListHelpers

variable {α : Type}

lemma getQ_replicate_eq {k i : Nat} {a b : α}
    (h : (List.replicate k a).get? i = some b) : b = a := by
  induction k generalizing i with
  | zero => simp [List.replicate] at h
  | succ n ih =>
    cases i with
    | zero =>
      simp [List.replicate] at h
      subst h
      rfl
    | succ j => exact ih (by simpa [List.replicate] using h)

lemma getQ_set_self {l : List α} {i : Nat} {b : α} (h : i < l.length) :
    (l.set i b).get? i = some b := by
  induction l generalizing i with
  | nil => simp at h
  | cons x xs ih =>
    cases i with
    | zero => rfl
    | succ j => simpa [List.set] using ih (by simpa using h)

lemma getQ_set_other {l : List α} {i j : Nat} {b : α} (h : i ≠ j) :
    (l.set i b).get? j = l.get? j := by
  induction l generalizing i j with
  | nil => rfl
  | cons x xs ih =>
    cases i with
    | zero =>
      cases j with
      | zero => exact absurd rfl h
      | succ j2 => rfl
    | succ i2 =>
      cases j with
      | zero => rfl
      | succ j2 => simpa [List.set] using ih (fun he => h (by rw [he]))

lemma countP_set_balance (p : α → Bool) {l : List α} {i : Nat} {a : α} (b : α)
    (h : l.get? i = some a) :
    (l.set i b).countP p + (if p a then 1 else 0) =
      l.countP p + (if p b then 1 else 0) := by
  induction l generalizing i with
  | nil => simp at h
  | cons x xs ih =>
    cases i with
    | zero =>
      have hax : x = a := by simpa using h
      subst hax
      simp [List.set, List.countP_cons]
      omega
    | succ j =>
      have h2 : xs.get? j = some a := by simpa using h
      have := ih h2
      simp [List.set, List.countP_cons]
      omega

lemma getQ_lt {l : List α} {i : Nat} {a : α} (h : l.get? i = some a) :
    i < l.length := by
  induction l generalizing i with
  | nil => simp at h
  | cons x xs ih =>
    cases i with
    | zero => simp
    | succ j =>
      have := ih (by simpa using h)
      simpa using Nat.succ_lt_succ this

lemma getQ_append_mid (l1 : List α) (a : α) (t : List α) :
    (l1 ++ a :: t).get? l1.length = some a := by
  induction l1 with
  | nil => rfl
  | cons x xs ih => simpa using ih

lemma set_append_mid (l1 : List α) (a b : α) (t : List α) :
    (l1 ++ a :: t).set l1.length b = l1 ++ b :: t := by
  induction l1 with
  | nil => rfl
  | cons x xs ih => simp [List.set, ih]

end ListHelpers

/-- The semaphore invariant of a batch execution: the task list never changes
length, and free permits plus tasks inside assess_image always total m. -/
def SemInv (outcomes : List AssessOutcome) (m : Nat) (s : BatchState) : Prop :=
  s.tasks.length = outcomes.length ∧ s.sem + runningCount s = m

lemma reach_semInv {outcomes : List AssessOutcome} {m : Nat} {s : BatchState}
    (h : Reach outcomes m s) : SemInv outcomes m s := by
  induction h with
  | init =>
    constructor
    · simp [initState]
    · have hz : runningCount (initState m outcomes.length) = 0 := by
        apply List.countP_eq_zero.mpr
        intro a ha
        have := List.eq_of_mem_replicate ha
        subst this
        simp [isRunning]
      simp [initState] at hz ⊢
      simpa [runningCount, initState] using hz
  | step hr hstep ih =>
    obtain ⟨hlen, hsum⟩ := ih
    cases hstep with
    | start i hw hsem =>
      constructor
      · simpa [List.length_set] using hlen
      · have hbal := countP_set_balance isRunning (a := TaskSt.waiting)
          (b := TaskSt.running) hw
        simp [isRunning] at hbal
        simp only [runningCount] at hsum ⊢
        omega
    | finish i o hrn ho =>
      constructor
      · simpa [List.length_set] using hlen
      · have hbal := countP_set_balance isRunning (a := TaskSt.running)
          (b := TaskSt.done o) hrn
        simp [isRunning] at hbal
        simp only [runningCount] at hsum ⊢
        omega

/-- Positional correctness of completed entries: in any reachable snapshot, a
task recorded as done at position i holds exactly the outcome of unit i. -/
lemma reach_done_correct {outcomes : List AssessOutcome} {m : Nat}
    {s : BatchState} (h : Reach outcomes m s) :
    ∀ i o, s.tasks.get? i = some (.done o) → outcomes.get? i = some o := by
  induction h with
  | init =>
    intro i o hi
    exact absurd (getQ_replicate_eq hi) (by intro he; cases he)
  | step hr hstep ih =>
    cases hstep with
    | start i hw hsem =>
      intro j o hj
      by_cases he : i = j
      · subst he
        rw [getQ_set_self (getQ_lt hw)] at hj
        cases hj
      · rw [getQ_set_other he] at hj
        exact ih j o hj
    | finish i o hrn ho =>
      intro j o2 hj
      by_cases he : i = j
      · subst he
        rw [getQ_set_self (getQ_lt hrn)] at hj
        injection hj with hj2
        injection hj2 with hj3
        rw [← hj3]
        exact ho
      · rw [getQ_set_other he] at hj
        exact ih j o2 hj

/-- In any reachable snapshot in which every task has completed, the task list
is exactly the outcome list in submission order, each entry wrapped as done. -/
lemma reach_allDone_eq {outcomes : List AssessOutcome} {m : Nat}
    {s : BatchState} (h : Reach outcomes m s)
    (hdone : ∀ t ∈ s.tasks, ∃ o, t = TaskSt.done o) :
    s.tasks = outcomes.map TaskSt.done := by
  have hlen : s.tasks.length = outcomes.length := (reach_semInv h).1
  apply List.ext_get?
  intro n
  by_cases hn : n < s.tasks.length
  · obtain ⟨a, ha⟩ : ∃ a, s.tasks.get? n = some a :=
      ⟨s.tasks.get ⟨n, hn⟩, List.get?_eq_get hn⟩
    have hmem : a ∈ s.tasks := List.get?_mem ha
    obtain ⟨o, rfl⟩ := hdone a hmem
    have houtn : outcomes.get? n = some o := reach_done_correct h n o ha
    rw [ha, List.get?_map, houtn]
    rfl
  · have h1 : s.tasks.get? n = none := List.get?_eq_none.mpr (Nat.le_of_not_lt hn)
    have h2 : (outcomes.map TaskSt.done).get? n = none := by
      apply List.get?_eq_none.mpr
      simpa [List.length_map, ← hlen] using Nat.le_of_not_lt hn
    rw [h1, h2]

/-- The snapshot of a sequential execution after the first j tasks have been
started and finished one at a time. -/
def stateAfter (outcomes : List AssessOutcome) (m j : Nat) : BatchState :=
  ⟨m, ((outcomes.take j).map TaskSt.done) ++
      List.replicate (outcomes.length - j) TaskSt.waiting⟩

lemma reach_stateAfter {outcomes : List AssessOutcome} {m : Nat} (hm : 0 < m) :
    ∀ j, j ≤ outcomes.length → Reach outcomes m (stateAfter outcomes m j) := by
  intro j
  induction j with
  | zero =>
    intro _
    have : stateAfter outcomes m 0 = initState m outcomes.length := by
      simp [stateAfter, initState]
    rw [this]
    exact Reach.init
  | succ j ih =>
    intro hj
    have hjlt : j < outcomes.length := Nat.lt_of_succ_le hj
    have hreach := ih (Nat.le_of_lt hjlt)
    obtain ⟨o, ho⟩ : ∃ o, outcomes.get? j = some o :=
      ⟨outcomes.get ⟨j, hjlt⟩, List.get?_eq_get hjlt⟩
    set l1 : List TaskSt := (outcomes.take j).map TaskSt.done with hl1
    have hl1len : l1.length = j := by
      simp [hl1, List.length_map, List.length_take, Nat.min_eq_left
        (Nat.le_of_lt hjlt)]
    have hrep : List.replicate (outcomes.length - j) TaskSt.waiting =
        TaskSt.waiting :: List.replicate (outcomes.length - (j + 1))
          TaskSt.waiting := by
      have : outcomes.length - j = (outcomes.length - (j + 1)) + 1 := by omega
      rw [this, List.replicate_succ]
    have htasks : (stateAfter outcomes m j).tasks =
        l1 ++ TaskSt.waiting :: List.replicate (outcomes.length - (j + 1))
          TaskSt.waiting := by
      simp only [stateAfter]
      rw [hrep]
    -- step 1: task j acquires the semaphore
    have hw : (stateAfter outcomes m j).tasks.get? j = some TaskSt.waiting := by
      rw [htasks, ← hl1len]
      exact getQ_append_mid l1 TaskSt.waiting _
    have hstep1 := @BStep.start outcomes (stateAfter outcomes m j)
      j hw (by simpa [stateAfter] using hm)
    have hmid := Reach.step hreach hstep1
    have hmid_tasks : (stateAfter outcomes m j).tasks.set j TaskSt.running =
        l1 ++ TaskSt.running :: List.replicate (outcomes.length - (j + 1))
          TaskSt.waiting := by
      rw [htasks, ← hl1len]
      exact set_append_mid l1 TaskSt.waiting TaskSt.running _
    -- step 2: task j finishes with outcome o
    have hr : ((stateAfter outcomes m j).tasks.set j TaskSt.running).get? j =
        some TaskSt.running := by
      rw [hmid_tasks, ← hl1len]
      exact getQ_append_mid l1 TaskSt.running _
    have hstep2 := @BStep.finish outcomes
      ⟨(stateAfter outcomes m j).sem - 1,
        (stateAfter outcomes m j).tasks.set j TaskSt.running⟩ j o hr ho
    have hfin := Reach.step hmid hstep2
    have hfin_tasks :
        ((stateAfter outcomes m j).tasks.set j TaskSt.running).set j
          (TaskSt.done o) =
        l1 ++ TaskSt.done o :: List.replicate (outcomes.length - (j + 1))
          TaskSt.waiting := by
      rw [hmid_tasks, ← hl1len]
      exact set_append_mid l1 TaskSt.running (TaskSt.done o) _
    have hsem2 : (stateAfter outcomes m j).sem - 1 + 1 = m := by
      simp only [stateAfter]
      omega
    have htake : (outcomes.take (j + 1)).map TaskSt.done =
        l1 ++ [TaskSt.done o] := by
      have ho2 : outcomes[j]? = some o := by
        rw [← List.get?_eq_getElem?]
        exact ho
      rw [List.take_succ, ho2]
      simp [hl1]
    have : stateAfter outcomes m (j + 1) =
        ⟨(stateAfter outcomes m j).sem - 1 + 1,
          ((stateAfter outcomes m j).tasks.set j TaskSt.running).set j
            (TaskSt.done o)⟩ := by
      rw [hfin_tasks, hsem2]
      simp only [stateAfter, htake, List.append_assoc, List.singleton_append]
    rw [this]
    exact hfin

/-- A concrete successful prediction used in concrete instances. -/
def sampleResult : ModelResult :=
  { prediction := .normal, confidence := 9 / 10,
    featuresDict := [("area", 1)], processingTimeMs := 100 }

/-- Claim C1, counterexample: with all backends registered (successful load)
and a predict call that raises, assess_image lets the exception propagate to
its caller instead of returning a typed error, so a registered backend id does
raise through on a backend-internal failure. -/
theorem c1_registered_predict_failure_raises :
    (loadModels none ModelType.cnn).isSome = true ∧
    (assessImage (loadModels none) ModelType.cnn "req-1"
        (fun _ => Except.error (Err.backendFailure "predict blew up"))
        true true).fst
      = AssessOutcome.raised (Err.backendFailure "predict blew up") := by
  exact ⟨rfl, rfl⟩

/-- Claim C1 (amended): assess_image raises ValueError immediately for an
unregistered model type; for a registered backend it returns the prediction on
success, and on a predict failure it logs an error and re-raises that same
exception to the caller; no typed error value is returned. -/
theorem c1_assess_error_propagation (models : Models) (mt : ModelType)
    (rid : String) (po : Backend → Except Err ModelResult) (li dbOk : Bool) :
    (models mt = none →
      (assessImage models mt rid po li dbOk).fst =
        AssessOutcome.raised (Err.modelNotAvailable mt)) ∧
    (∀ b e, models mt = some b → po b = Except.error e →
      (assessImage models mt rid po li dbOk).fst = AssessOutcome.raised e) ∧
    (∀ b r, models mt = some b → po b = Except.ok r →
      (assessImage models mt rid po li dbOk).fst = AssessOutcome.ok r) := by
  refine ⟨?_, ?_, ?_⟩
  · intro h
    simp [assessImage, h]
  · intro b e hb he
    simp [assessImage, hb, assessRegistered, he]
  · intro b r hb hr
    simp [assessImage, hb, assessRegistered, hr]

/-- Witness for the amended C1 theorem at a concrete registered backend and a
concrete predict failure. -/
theorem c1_assess_error_propagation_witness :
    (assessImage (loadModels none) ModelType.svm "req-2"
        (fun _ => Except.error (Err.backendFailure "timeout")) true true).fst
      = AssessOutcome.raised (Err.backendFailure "timeout") :=
  (c1_assess_error_propagation (loadModels none) ModelType.svm "req-2"
      (fun _ => Except.error (Err.backendFailure "timeout")) true true).2.1
    (Backend.real ModelType.svm) (Err.backendFailure "timeout") rfl rfl

/-- Claim C2, counterexample: when the svm constructor fails after the cnn
constructor succeeded, the handler rebinds cnn to the dummy fallback as well,
so the successfully constructed backend does not remain registered as real. -/
theorem c2_partial_failure_replaces_all :
    loadModels (some LoadStep.svmCtor) ModelType.cnn
        = some (Backend.dummy ModelType.cnn) ∧
    loadModels (some LoadStep.svmCtor) ModelType.cnn
        ≠ some (Backend.real ModelType.cnn) := by
  exact ⟨rfl, by decide⟩

/-- Claim C2 (amended): fallback substitution is global, not per-backend-id: a
construction failure at any step leaves every backend id bound to the dummy
fallback, including ids whose construction had already succeeded; only a fully
successful load leaves the real backends registered. -/
theorem c2_fallback_is_global (failAt : Option LoadStep) (mt : ModelType) :
    loadModels failAt mt =
      some (if failAt.isSome then Backend.dummy mt else Backend.real mt) := by
  cases failAt with
  | none => cases mt <;> rfl
  | some st => cases st <;> cases mt <;> rfl

/-- Claim C3, counterexample: a successful single-request assessment emits its
log effects and returns the result, but its effect trace contains no cache
write at all, for the request correlation id or any other key. -/
theorem c3_success_writes_no_cache :
    (assessImage (loadModels none) ModelType.cnn "req-3"
        (fun _ => Except.ok sampleResult) true true).fst
      = AssessOutcome.ok sampleResult ∧
    hasCacheWrite (assessImage (loadModels none) ModelType.cnn "req-3"
        (fun _ => Except.ok sampleResult) true true).snd = false := by
  exact ⟨rfl, rfl⟩

/-- Claim C3 (amended): assess_image writes no cache entry on any execution,
successful or not: its side effects are console log emissions and the durable
log write inside log_model_performance; the cache service is never invoked on
the single-request assessment path. -/
theorem c3_assess_never_writes_cache (models : Models) (mt : ModelType)
    (rid : String) (po : Backend → Except Err ModelResult) (li dbOk : Bool) :
    hasCacheWrite (assessImage models mt rid po li dbOk).snd = false := by
  cases hm : models mt with
  | none => simp [assessImage, hm, hasCacheWrite]
  | some b =>
    cases hp : po b with
    | ok r =>
      simp [assessImage, hm, assessRegistered, hp, hasCacheWrite, writeLog,
        levelGate]
    | error e =>
      simp [assessImage, hm, assessRegistered, hp, hasCacheWrite]

/-- Claim C4, counterexample: with the MinIO client initialized and the
put_object call raising, save_uploaded_image re-raises after the local write,
so a remote-tier write failure does fail the save call instead of returning a
local-only record. -/
theorem c4_remote_put_failure_fails_save :
    (saveUploadedImage true (CallOutcome.ok (List.replicate 100 0)) true false
        "a.png" "image/png" "req-4").fst = Except.error () ∧
    (saveUploadedImage true (CallOutcome.ok (List.replicate 100 0)) true false
        "a.png" "image/png" "req-4").snd = [SaveStep.localWrite] := by
  exact ⟨rfl, rfl⟩

/-- Claim C4 (amended): save_uploaded_image writes the bytes to the local tier
first; the remote write is attempted only when the MinIO client is
initialized, so an unreachable remote tier at initialization time still lets
the save succeed with a local-only write (the returned record carries no tier
mark); but a failure of the remote write itself propagates and fails the
whole call, after the local write completed. -/
theorem c4_save_semantics (minioInit : Bool) (content : List Nat)
    (localOk remoteOk : Bool) (origName contentType rid : String)
    (hlocal : localOk = true) :
    (minioInit = false →
      saveUploadedImage minioInit (CallOutcome.ok content) localOk remoteOk
          origName contentType rid =
        (Except.ok { filename := rid ++ "_" ++ origName,
                     path := "uploads/" ++ (rid ++ "_" ++ origName),
                     size := content.length, format := contentType },
         [SaveStep.localWrite])) ∧
    (minioInit = true → remoteOk = true →
      saveUploadedImage minioInit (CallOutcome.ok content) localOk remoteOk
          origName contentType rid =
        (Except.ok { filename := rid ++ "_" ++ origName,
                     path := "uploads/" ++ (rid ++ "_" ++ origName),
                     size := content.length, format := contentType },
         [SaveStep.localWrite, SaveStep.remotePut])) ∧
    (minioInit = true → remoteOk = false →
      saveUploadedImage minioInit (CallOutcome.ok content) localOk remoteOk
          origName contentType rid =
        (Except.error (), [SaveStep.localWrite])) := by
  subst hlocal
  refine ⟨?_, ?_, ?_⟩
  · intro h
    subst h
    rfl
  · intro h1 h2
    subst h1
    subst h2
    rfl
  · intro h1 h2
    subst h1
    subst h2
    rfl

/-- Witness for the amended C4 theorem: with the remote tier unreachable at
initialization, saving a 100-byte payload succeeds via the local tier only. -/
theorem c4_save_semantics_witness :
    saveUploadedImage false (CallOutcome.ok (List.replicate 100 0)) true true
        "a.png" "image/png" "req-5" =
      (Except.ok { filename := "req-5_a.png", path := "uploads/req-5_a.png",
                   size := (List.replicate 100 (0 : Nat)).length,
                   format := "image/png" },
       [SaveStep.localWrite]) :=
  (c4_save_semantics false (List.replicate 100 0) true true "a.png"
      "image/png" "req-5" rfl).1 rfl

/-- Claim C7: get_image consults the remote tier first when its client is
initialized; on a remote miss or remote S3-level error (both raised as
S3Error, the one exception class the code distinguishes there) it falls back
to the local tier; and it returns None only when neither tier yields the
bytes, where a tier yields bytes when it holds the artifact and its read
succeeds. -/
theorem c7_get_image_tier_preference (minioInit : Bool) (remote : RemoteGet)
    (localFile : Option (List Nat)) (localReadOk : Bool) :
    (∀ d, minioInit = true → remote = RemoteGet.found d →
        getImage minioInit remote localFile localReadOk = some d) ∧
    (∀ d, (minioInit = false ∨ remote = RemoteGet.s3err) →
        localFile = some d → localReadOk = true →
        getImage minioInit remote localFile localReadOk = some d) ∧
    (getImage minioInit remote localFile localReadOk = none →
        (minioInit = false ∨ remote = RemoteGet.s3err) ∧
        (localFile = none ∨ localReadOk = false)) := by
  refine ⟨?_, ?_, ?_⟩
  · intro d h1 h2
    subst h1
    subst h2
    rfl
  · intro d h1 h2 h3
    subst h2
    subst h3
    cases minioInit with
    | false => rfl
    | true =>
      rcases h1 with h | h
      · cases h
      · subst h
        rfl
  · intro h
    cases minioInit with
    | false =>
      refine ⟨Or.inl rfl, ?_⟩
      cases localFile with
      | none => exact Or.inl rfl
      | some d =>
        cases localReadOk with
        | false => exact Or.inr rfl
        | true => simp [getImage] at h
    | true =>
      cases remote with
      | found d => simp [getImage] at h
      | s3err =>
        refine ⟨Or.inr rfl, ?_⟩
        cases localFile with
        | none => exact Or.inl rfl
        | some d =>
          cases localReadOk with
          | false => exact Or.inr rfl
          | true => simp [getImage] at h

/-- Witness for C7: remote tier down (client uninitialized), artifact present
locally and readable; the read falls back to the local tier and returns the
bytes. -/
theorem c7_get_image_tier_preference_witness :
    getImage false RemoteGet.s3err (some [7, 7]) true = some [7, 7] :=
  (c7_get_image_tier_preference false RemoteGet.s3err (some [7, 7]) true).2.1
    [7, 7] (Or.inl rfl) rfl rfl

/-- Claim C8, counterexample: a warning-level record call on a service whose
initialized flag is false is not persisted to the durable store, although its
severity is warning or higher, refuting the stated if-and-only-if. -/
theorem c8_warning_not_persisted_when_uninitialized :
    levelGate LogLevel.warning = true ∧
    hasPersist (writeLog false true LogLevel.warning "disk almost full")
      = false := by
  exact ⟨rfl, rfl⟩

/-- Claim C8 (amended): every record call always emits to the live structured
sink first; it is persisted to the durable store exactly when its severity is
warning or higher, the service has been initialized, and the database write
succeeds; debug and info events are never durably persisted. -/
theorem c8_writeLog_emit_and_persist (inited dbOk : Bool) (lvl : LogLevel)
    (msg : String) :
    (writeLog inited dbOk lvl msg).head? = some (Effect.emitLive lvl msg) ∧
    hasPersist (writeLog inited dbOk lvl msg)
      = (levelGate lvl && inited && dbOk) ∧
    hasPersist (writeLog inited dbOk LogLevel.debug msg) = false ∧
    hasPersist (writeLog inited dbOk LogLevel.info msg) = false := by
  refine ⟨rfl, ?_, ?_, ?_⟩ <;> cases inited <;> cases dbOk <;> cases lvl <;> rfl

/-- Claim C9: when the cache backend is unreachable, either because the client
was never initialized or because the redis call raises, get completes without
raising and reports a miss, and set completes without raising as a no-op
returning False, for every key, value and ttl. -/
theorem c9_cache_degrades (key : String) (v : CVal) (ttl : Nat)
    (rg : String → CallOutcome (Option String))
    (rs : String → Nat → String → CallOutcome Unit) (clientInit : Bool)
    (hget : clientInit = false ∨ rg key = CallOutcome.raise)
    (hset : clientInit = false ∨ rs key ttl (pickleDumps v) = CallOutcome.raise) :
    cacheGet clientInit key rg = Except.ok none ∧
    cacheSet clientInit key v ttl rs = Except.ok false := by
  constructor
  · rcases hget with h | h
    · subst h
      rfl
    · cases clientInit with
      | false => rfl
      | true => simp [cacheGet, h]
  · rcases hset with h | h
    · subst h
      rfl
    · cases clientInit with
      | false => rfl
      | true => simp [cacheSet, h]

/-- Witness for C9 at a concrete key and value with the client uninitialized. -/
theorem c9_cache_degrades_witness :
    cacheGet false "result:req-6" (fun _ => CallOutcome.ok none)
        = Except.ok none ∧
    cacheSet false "result:req-6" "payload" 3600
        (fun _ _ _ => CallOutcome.ok ()) = Except.ok false :=
  c9_cache_degrades "result:req-6" "payload" 3600
    (fun _ => CallOutcome.ok none) (fun _ _ _ => CallOutcome.ok ()) false
    (Or.inl rfl) (Or.inl rfl)

/-- Claim C10: after ModelOrchestrator construction, whatever the load outcome,
the registry holds a backend for every ModelType, so the unregistered-model
ValueError branch of assess_image can never be taken for a valid ModelType
(the call always proceeds to the registered-backend body), and
get_available_models reports all three backends. -/
theorem c10_registry_total (failAt : Option LoadStep) (mt : ModelType) :
    (∃ b, loadModels failAt mt = some b) ∧
    (∀ rid po li dbOk, ∃ b, loadModels failAt mt = some b ∧
        assessImage (loadModels failAt) mt rid po li dbOk =
          assessRegistered b po li dbOk) ∧
    (getAvailableModels (loadModels failAt)).length = 3 := by
  have hb : loadModels failAt mt =
      some (if failAt.isSome then Backend.dummy mt else Backend.real mt) := by
    cases failAt with
    | none => cases mt <;> rfl
    | some st => cases st <;> cases mt <;> rfl
  refine ⟨⟨_, hb⟩, ?_, ?_⟩
  · intro rid po li dbOk
    refine ⟨_, hb, ?_⟩
    simp [assessImage, hb]
  · cases failAt with
    | none => rfl
    | some st => cases st <;> rfl

/-- Claim C5: in any execution of batch_assess over a list of image paths with
admission bound m greater than zero, every snapshot in which all tasks have
completed carries exactly one entry per submitted path, in submission order,
each holding that path's own assess_image outcome (so one unit raising is
recorded as the error entry at its own position and leaves every sibling entry
equal to the sibling's own outcome); and such a completed snapshot is
reachable, so the batch does return that list. -/
theorem c5_batch_order_and_isolation (models : Models) (mt : ModelType)
    (po : String → Backend → Except Err ModelResult) (li dbOk : Bool)
    (paths : List String) (m : Nat) (hm : 0 < m) :
    (∀ s, Reach (paths.map (unitResult models mt po li dbOk)) m s →
        (∀ t ∈ s.tasks, ∃ o, t = TaskSt.done o) →
        s.tasks =
          (paths.map (unitResult models mt po li dbOk)).map TaskSt.done) ∧
    (∃ s, Reach (paths.map (unitResult models mt po li dbOk)) m s ∧
        s.tasks =
          (paths.map (unitResult models mt po li dbOk)).map TaskSt.done) := by
  constructor
  · intro s hs hd
    exact reach_allDone_eq hs hd
  · refine ⟨stateAfter (paths.map (unitResult models mt po li dbOk)) m
      (paths.map (unitResult models mt po li dbOk)).length,
      reach_stateAfter hm _ le_rfl, ?_⟩
    simp [stateAfter]

/-- Claim C6: in any execution of batch_assess, no reachable snapshot has more
than m tasks inside their assess_image (and hence backend predict) call at
once: the semaphore admission bound is never exceeded. -/
theorem c6_concurrency_bound (models : Models) (mt : ModelType)
    (po : String → Backend → Except Err ModelResult) (li dbOk : Bool)
    (paths : List String) (m : Nat) (s : BatchState)
    (h : Reach (paths.map (unitResult models mt po li dbOk)) m s) :
    runningCount s ≤ m := by
  have hinv := (reach_semInv h).2
  omega

/-- A concrete batch matching the spec scenario: five artifacts where unit 3
deterministically fails. -/
def demoPaths : List String := ["p0", "p1", "p2", "p3", "p4"]

/-- Predict behaviour for the concrete batch: the backend raises exactly on
path p3 and succeeds elsewhere. -/
def demoPredict (path : String) : Backend → Except Err ModelResult :=
  fun _ =>
    if path = "p3" then Except.error (Err.backendFailure "unit 3 fails")
    else Except.ok sampleResult

/-- The per-unit outcomes of the concrete batch: exactly one failure entry, at
position 3, the other four entries successful. -/
lemma demo_unit_outcomes :
    demoPaths.map (unitResult (loadModels none) ModelType.cnn demoPredict
        true true) =
      [AssessOutcome.ok sampleResult, AssessOutcome.ok sampleResult,
       AssessOutcome.ok sampleResult,
       AssessOutcome.raised (Err.backendFailure "unit 3 fails"),
       AssessOutcome.ok sampleResult] := by
  rfl

/-- Witness for C5 at the spec scenario: five artifacts, bound two, unit 3
failing. -/
theorem c5_batch_order_and_isolation_witness :
    (∀ s, Reach (demoPaths.map (unitResult (loadModels none) ModelType.cnn
          demoPredict true true)) 2 s →
        (∀ t ∈ s.tasks, ∃ o, t = TaskSt.done o) →
        s.tasks = (demoPaths.map (unitResult (loadModels none) ModelType.cnn
          demoPredict true true)).map TaskSt.done) ∧
    (∃ s, Reach (demoPaths.map (unitResult (loadModels none) ModelType.cnn
          demoPredict true true)) 2 s ∧
        s.tasks = (demoPaths.map (unitResult (loadModels none) ModelType.cnn
          demoPredict true true)).map TaskSt.done) :=
  c5_batch_order_and_isolation (loadModels none) ModelType.cnn demoPredict
    true true demoPaths 2 (by decide)

/-- Witness for C6 at the initial snapshot of the concrete batch. -/
theorem c6_concurrency_bound_witness :
    runningCount (initState 2 5) ≤ 2 :=
  c6_concurrency_bound (loadModels none) ModelType.cnn demoPredict true true
    demoPaths 2 (initState 2 5) Reach.init

end DentalAssessment
